import Mathlib

/-!
Verification of the ChatbotBase request-dispatch pipeline and localized
reply-composition engine (src/ChatbotBase.ts).  The source file contains two
historical variants of the design separated by a document marker; the second,
most complete variant (MapTranslator, DefaultReply, the `handle` method using
`filter(...).forEach(...)`) is the one in scope, and the legacy `Input.reply`
of the first variant is embedded where a claim cites it.

Modelling conventions:
  * JavaScript strings are Lean `String`s; the translation tables
    (plain JS objects) are association lists with first-match lookup.
  * Thrown JS exceptions are `Except JsErr`; a `TypeError` raised by
    indexing into `undefined` is `JsErr.typeError`, a thrown `Error(msg)`
    is `JsErr.thrown msg`.
  * `Math.random()`-driven variant selection is injected as a `rand : Nat`
    parameter; the chosen index is `rand % length`, which ranges over every
    index the JS expression `Math.floor(Math.random() * length)` can produce.
  * `sprintf` (the external sprintf-js 1.x library, a specified boundary) is
    modelled positionally for the `%s` conversion and the `%%` escape;
    `sprintf(undefined)` yields `""` (empty parse tree), matching the library.
    The library's too-few-arguments error is not exercised by any claim and is
    modelled by keeping the placeholder.
  * Values that reach a `string`-typed position but are not strings at runtime
    (the object literals built by `addVoiceReply`/`suggestion()`, which fail
    `instanceof` checks, and the `undefined` returned by `void` methods) are
    embedded explicitly, with their JS property-key coercion
    (`"[object Object]"`, `"undefined"`) and their sprintf-format coercion.
-/

deriving instance DecidableEq for Except

namespace ChatbotBase

/-- The input method enum of the source (`InputMethod`). -/
inductive InputMethod where
  | voice
  | text
  | touch
deriving DecidableEq, Repr

/-- The `Context` interface: an open string-keyed map, opaque to the core.
Values are modelled as strings; the core only carries the map around. -/
abbrev Context := List (String × String)

/-- The flattened field record of `IOMessage` together with `Input`'s extras
(`accessToken`, and the `internalData` map of the in-scope variant). -/
structure Input where
  id : String
  userId : String
  sessionId : String
  language : String
  platform : String
  time : Nat
  intent : String
  inputMethod : InputMethod
  message : String
  context : Context
  accessToken : String
  internalData : List (String × String) := []
deriving DecidableEq, Repr

/-- A `Message` value: paired display text and SSML markup. -/
structure Message where
  displayText : String
  ssml : String
deriving DecidableEq, Repr

/-- A concrete `Reply` value.  The source's `render()`/`debug()` closures all
capture fixed strings, so they are embedded as the strings they return. -/
structure ReplyV where
  platform : String
  type : String
  render : String
  debug : String
deriving DecidableEq, Repr

/-- A concrete `Suggestion` value; `render()`/`toString()` closures again
capture fixed strings. -/
structure SuggestionV where
  platform : String
  render : String
  text : String
deriving DecidableEq, Repr

/-- A translation-table value: a single template or an array of variants. -/
inductive TrVal where
  | single (s : String)
  | variants (l : List String)
deriving DecidableEq, Repr

/-- The per-language `Translation` map (key to template). -/
abbrev Translation := List (String × TrVal)

/-- The `Translations` structure (language tag to per-language map). -/
abbrev Translations := List (String × Translation)

/-- JS object property lookup on the modelled maps (first match). -/
def lookupA : List (String × α) → String → Option α
  | [], _ => none
  | (k, v) :: rest, key => if k = key then some v else lookupA rest key

/-- Exceptions thrown by the embedded JS code. -/
inductive JsErr where
  | typeError
  | thrown (msg : String)
deriving DecidableEq, Repr

/-- Positional sprintf over the character list of the format string:
substitutes each `%s` with the next argument, `%%` with a percent sign, and
copies all other characters. -/
def sprintfChars : List Char → List String → List Char
  | [], _ => []
  | '%' :: '%' :: rest, args => '%' :: sprintfChars rest args
  | '%' :: 's' :: rest, a :: as => a.data ++ sprintfChars rest as
  | '%' :: 's' :: rest, [] => '%' :: 's' :: sprintfChars rest []
  | c :: rest, args => c :: sprintfChars rest args

/-- Model of sprintf-js applied to a possibly-`undefined` format:
`sprintf(undefined, ...)` produces `""` (the parse tree of `undefined` is
empty in sprintf-js 1.x), otherwise positional substitution is performed. -/
def sprintfS : Option String → List String → String
  | none, _ => ""
  | some f, args => String.mk (sprintfChars f.data args)

namespace MapTranslator

/-- Embedding of `MapTranslator.getDisplayText`.  The source indexes
`this.translations[input.language][key]` without a guard, so an absent
language throws a `TypeError`; an absent key yields `undefined`, which
sprintf-js turns into `""`.  Array values select the variant at the injected
random index. -/
def getDisplayText (tr : Translations) (lang key : String) (args : List String)
    (rand : Nat) : Except JsErr String :=
  match lookupA tr lang with
  | none => Except.error JsErr.typeError
  | some m =>
    let translation : Option String :=
      match lookupA m key with
      | none => none
      | some (TrVal.single s) => some s
      | some (TrVal.variants l) => l.get? (rand % l.length)
    Except.ok (sprintfS translation args)

/-- Embedding of `MapTranslator.getSsml`: wraps the resolved display text in
one `<speak>` envelope (string concatenation in the source). -/
def getSsml (tr : Translations) (lang key : String) (args : List String)
    (rand : Nat) : Except JsErr String :=
  match getDisplayText tr lang key args rand with
  | Except.error e => Except.error e
  | Except.ok t => Except.ok ("<speak>" ++ t ++ "</speak>")

/-- Embedding of `MapTranslator.getMessage`: returns the paired message when
the display text is truthy (a nonempty string), otherwise JS `null`. -/
def getMessage (tr : Translations) (lang key : String) (args : List String)
    (rand : Nat) : Except JsErr (Option Message) :=
  match getDisplayText tr lang key args rand with
  | Except.error e => Except.error e
  | Except.ok t =>
    if t = "" then Except.ok none
    else Except.ok (some ⟨t, "<speak>" ++ t ++ "</speak>"⟩)

end MapTranslator

/-- The flattened field record of an `Output` (the in-scope abstract class):
the inherited `IOMessage` fields plus the reply/suggestion lists, the
retention message and the continuation flag. -/
structure OutputData where
  id : String
  userId : String
  sessionId : String
  language : String
  platform : String
  time : Nat
  intent : String
  inputMethod : InputMethod
  message : String
  context : Context
  internalData : List (String × String)
  replies : List ReplyV
  suggestions : List SuggestionV
  retentionMessage : Option String
  expectAnswer : Bool
deriving DecidableEq, Repr

/-- Embedding of the `Output` constructor: the field initializers give empty
lists, no retention message and `expectAnswer = false`; the `super` call fixes
`new Date()` (the injected `now`) and `InputMethod.text`.  The parameter order
(platform before language) matches the source constructor. -/
def mkOutput (id userId sessionId platform language intent message : String)
    (context : Context) (now : Nat) : OutputData where
  id := id
  userId := userId
  sessionId := sessionId
  language := language
  platform := platform
  time := now
  intent := intent
  inputMethod := InputMethod.text
  message := message
  context := context
  internalData := []
  replies := []
  suggestions := []
  retentionMessage := none
  expectAnswer := false

/-- Embedding of the `DefaultReply` constructor: copies `id`, `userId`,
`sessionId`, `platform`, `language`, `intent`, `message` and `context` of the
input verbatim into the `Output` constructor. -/
def mkDefaultReply (i : Input) (now : Nat) : OutputData :=
  mkOutput i.id i.userId i.sessionId i.platform i.language i.intent i.message
    i.context now

/-- Embedding of the legacy variant's `Input.reply`: appends `".reply"` to the
id, copies user, session, platform, language, intent and context, and sets an
empty message body. -/
def Input.reply (i : Input) (now : Nat) : OutputData :=
  mkOutput (i.id ++ ".reply") i.userId i.sessionId i.platform i.language
    i.intent "" i.context now

/-- A value reaching the `key : string` position of `createMessage` at
runtime: a genuine string, the object literal produced by
`addVoiceReply`/`suggestion()` (which is not a string), or `undefined`. -/
inductive KeyArg where
  | str (s : String)
  | objLit
  | undef
deriving DecidableEq, Repr

/-- JS property-key coercion of a `KeyArg` (used when it indexes the
translation table): objects stringify to `"[object Object]"`, `undefined`
to `"undefined"`. -/
def KeyArg.toProp : KeyArg → String
  | KeyArg.str s => s
  | KeyArg.objLit => "[object Object]"
  | KeyArg.undef => "undefined"

/-- sprintf-format coercion of a `KeyArg`: `sprintf(undefined)` sees an empty
parse tree (modelled as `none`), objects are coerced to their string form. -/
def KeyArg.toFmt : KeyArg → Option String
  | KeyArg.str s => some s
  | KeyArg.objLit => some "[object Object]"
  | KeyArg.undef => none

/-- An argument of `createMessage`/`addReply`: a nested `Message` or a plain
string. -/
inductive MsgArg where
  | str (s : String)
  | msg (m : Message)
deriving DecidableEq, Repr

/-- Drops `pre` from the front of `s` when `pre` is a prefix, else `none`. -/
def dropPre : List Char → List Char → Option (List Char)
  | [], s => some s
  | _ :: _, [] => none
  | c :: cs, d :: ds => if c = d then dropPre cs ds else none

/-- Embedding of the regex replace in `createMessage`
(`/(^<speak>|<\/speak>$)/g` replaced by the empty string): removes one leading
`<speak>` and one trailing `</speak>` when present. -/
def stripSpeak (s : String) : String :=
  let l := s.data
  let l1 := match dropPre "<speak>".data l with
    | some r => r
    | none => l
  let l2 := match dropPre "</speak>".data.reverse l1.reverse with
    | some r => r.reverse
    | none => l1
  String.mk l2

/-- JS `Array.prototype.toString`: elements joined by commas (the coercion the
source applies when it passes a whole argument array to `sprintf` in the
`containsMessage` fallback of `createMessage`). -/
def joinComma (l : List String) : String :=
  String.intercalate "," l

namespace DefaultReply

/-- Embedding of `DefaultReply.applyTextAsMessage`: literal-template
substitution wrapped in one envelope. -/
def applyTextAsMessage (key : KeyArg) (args : List String) : Message :=
  let text := sprintfS key.toFmt args
  ⟨text, "<speak>" ++ text ++ "</speak>"⟩

/-- Embedding of `DefaultReply.createMessage`.  With a nested `Message`
argument, nested SSML is envelope-stripped, the key is resolved through
`getSsml` (which itself wraps in an envelope) and the result is wrapped in an
envelope again; the `|| sprintf(key, ...)` fallbacks receive the whole
argument array as a single sprintf argument, as in the source.  Without
nested messages, `getMessage` is used with `applyTextAsMessage` as fallback. -/
def createMessage (tr : Translations) (rand : Nat) (lang : String)
    (key : KeyArg) (args : List MsgArg) : Except JsErr Message :=
  let textArgs := args.map fun a => match a with
    | MsgArg.msg m => m.displayText
    | MsgArg.str s => s
  let ssmlArgs := args.map fun a => match a with
    | MsgArg.msg m => stripSpeak m.ssml
    | MsgArg.str s => s
  let containsMessage := args.any fun a => match a with
    | MsgArg.msg _ => true
    | MsgArg.str _ => false
  if containsMessage then
    match MapTranslator.getSsml tr lang key.toProp ssmlArgs rand with
    | Except.error e => Except.error e
    | Except.ok ssml0 =>
      let ssml := if ssml0 = "" then sprintfS key.toFmt [joinComma ssmlArgs]
        else ssml0
      match MapTranslator.getDisplayText tr lang key.toProp textArgs rand with
      | Except.error e => Except.error e
      | Except.ok text0 =>
        let text := if text0 = "" then sprintfS key.toFmt [joinComma textArgs]
          else text0
        Except.ok ⟨text, "<speak>" ++ ssml ++ "</speak>"⟩
  else
    match MapTranslator.getMessage tr lang key.toProp textArgs rand with
    | Except.error e => Except.error e
    | Except.ok (some m) => Except.ok m
    | Except.ok none => Except.ok (applyTextAsMessage key textArgs)

/-- Embedding of `DefaultReply.t`: strict resolution through
`getDisplayText`; a falsy result (empty string) raises the descriptive error
naming the key.  The lookup uses the output's own `language` field. -/
def t (tr : Translations) (rand : Nat) (o : OutputData) (key : String)
    (args : List String) : Except JsErr String :=
  match MapTranslator.getDisplayText tr o.language key args rand with
  | Except.error e => Except.error e
  | Except.ok text =>
    if text = "" then
      Except.error (JsErr.thrown ("No translation for key \"" ++ key ++ "\" found."))
    else Except.ok text

/-- Embedding of `DefaultReply.addTextReply`: resolves the message through
strict `t` and returns (without pushing) a text-kind reply object whose
`debug` falls back to `"<null>"` for a falsy render string. -/
def addTextReply (tr : Translations) (rand : Nat) (o : OutputData)
    (message : String) (args : List String) : Except JsErr ReplyV :=
  match t tr rand o message args with
  | Except.error e => Except.error e
  | Except.ok msg =>
    Except.ok ⟨"*", "text", msg, if msg = "" then "<null>" else msg⟩

/-- Embedding of `Output.setRetentionMessage`. -/
def setRetentionMessage (o : OutputData) (message : String) : OutputData :=
  { o with retentionMessage := some message }

/-- Embedding of `Output.setExpectAnswer`. -/
def setExpectAnswer (o : OutputData) (answerExpected : Bool) : OutputData :=
  { o with expectAnswer := answerExpected }

end DefaultReply

/-- Result tag of a composer call: normal return, a thrown exception, or
exhausted call-depth fuel (modelling the possibility of unbounded mutual
recursion between `addReply`, `addMessage` and `addVoiceReply`). -/
inductive ROut where
  | ok
  | err (e : JsErr)
  | spin
deriving DecidableEq, Repr

/-- A value reaching the `reply : Reply | string | Message` parameter of
`DefaultReply.addReply` at runtime: a genuine `Reply` class instance, a
genuine `Message` instance, a string, the Reply-shaped object literal built
by `addVoiceReply` (which fails `instanceof Reply`), or `undefined` (the
return value of the `void` method `addMessage`). -/
inductive ReplyArg where
  | reply (r : ReplyV)
  | msg (m : Message)
  | str (s : String)
  | objLit (r : ReplyV)
  | undef
deriving DecidableEq, Repr

/-- One pending composer call: `addReply`, `addMessage` or `addVoiceReply`
with its arguments. -/
inductive COp where
  | aReply (a : ReplyArg) (args : List MsgArg)
  | aMessage (k : KeyArg) (args : List MsgArg)
  | aVoice (message : String) (args : List MsgArg)
deriving DecidableEq, Repr

/-- Small-step interpreter for the mutually recursive composer methods of
`DefaultReply`, faithful to the runtime dispatch of the source:

  * `addReply` pushes genuine `Reply` instances; for a `Message` it calls
    `addTextReply` (whose returned reply object is discarded, as in the
    source) and then `addVoiceReply` with the message's SSML; every other
    value takes the string branch
    `this.addReply(this.addMessage(reply, ...args))`, which first runs
    `addMessage` and then recurses on `addMessage`'s `undefined` return.
  * `addMessage` is `this.addReply(this.createMessage(key, ...args))`.
  * `addVoiceReply` builds a message via `createMessage` and passes a plain
    object literal (kind `ssml`) to `addReply`; the literal is not an
    `instanceof Reply`, so it re-enters the string branch.

Exceptions abort the call chain with the state reached so far. -/
def runOp : Nat → Translations → Nat → OutputData → COp → ROut × OutputData
  | 0, _, _, o, _ => (ROut.spin, o)
  | _ + 1, _, _, o, COp.aReply (ReplyArg.reply r) _ =>
    (ROut.ok, { o with replies := o.replies ++ [r] })
  | fuel + 1, tr, rand, o, COp.aReply (ReplyArg.msg m) _ =>
    match DefaultReply.addTextReply tr rand o m.displayText [] with
    | Except.error e => (ROut.err e, o)
    | Except.ok _ => runOp fuel tr rand o (COp.aVoice m.ssml [])
  | fuel + 1, tr, rand, o, COp.aReply (ReplyArg.str s) args =>
    match runOp fuel tr rand o (COp.aMessage (KeyArg.str s) args) with
    | (ROut.ok, o2) => runOp fuel tr rand o2 (COp.aReply ReplyArg.undef [])
    | res => res
  | fuel + 1, tr, rand, o, COp.aReply (ReplyArg.objLit _) args =>
    match runOp fuel tr rand o (COp.aMessage KeyArg.objLit args) with
    | (ROut.ok, o2) => runOp fuel tr rand o2 (COp.aReply ReplyArg.undef [])
    | res => res
  | fuel + 1, tr, rand, o, COp.aReply ReplyArg.undef args =>
    match runOp fuel tr rand o (COp.aMessage KeyArg.undef args) with
    | (ROut.ok, o2) => runOp fuel tr rand o2 (COp.aReply ReplyArg.undef [])
    | res => res
  | fuel + 1, tr, rand, o, COp.aMessage k args =>
    match DefaultReply.createMessage tr rand o.language k args with
    | Except.error e => (ROut.err e, o)
    | Except.ok m => runOp fuel tr rand o (COp.aReply (ReplyArg.msg m) [])
  | fuel + 1, tr, rand, o, COp.aVoice message args =>
    match DefaultReply.createMessage tr rand o.language (KeyArg.str message) args with
    | Except.error e => (ROut.err e, o)
    | Except.ok m =>
      runOp fuel tr rand o (COp.aReply (ReplyArg.objLit ⟨"*", "ssml", m.ssml, m.ssml⟩) [])

/-- Entry point for `DefaultReply.addReply` with a call-depth budget. -/
def addReplyRun (fuel : Nat) (tr : Translations) (rand : Nat) (o : OutputData)
    (a : ReplyArg) (args : List MsgArg) : ROut × OutputData :=
  runOp fuel tr rand o (COp.aReply a args)

/-- A value reaching `DefaultReply.addSuggestion`: a genuine `Suggestion`
instance, a label/translation-key string, or the Suggestion-shaped object
literal built by the `suggestion()` helper (which fails
`instanceof Suggestion` and takes the string branch as an object key). -/
inductive SuggArg where
  | inst (s : SuggestionV)
  | str (s : String)
  | objLit
deriving DecidableEq, Repr

/-- Embedding of `DefaultReply.addSuggestion`: genuine instances are pushed;
other values are resolved through `createMessage` and pushed as a generic
`*`-platform suggestion rendering the display text. -/
def DefaultReply.addSuggestion (tr : Translations) (rand : Nat)
    (o : OutputData) (a : SuggArg) (args : List MsgArg) : ROut × OutputData :=
  match a with
  | SuggArg.inst s => (ROut.ok, { o with suggestions := o.suggestions ++ [s] })
  | SuggArg.str label =>
    match DefaultReply.createMessage tr rand o.language (KeyArg.str label) args with
    | Except.error e => (ROut.err e, o)
    | Except.ok m =>
      (ROut.ok, { o with suggestions := o.suggestions ++ [⟨"*", m.displayText, m.displayText⟩] })
  | SuggArg.objLit =>
    match DefaultReply.createMessage tr rand o.language KeyArg.objLit args with
    | Except.error e => (ROut.err e, o)
    | Except.ok m =>
      (ROut.ok, { o with suggestions := o.suggestions ++ [⟨"*", m.displayText, m.displayText⟩] })

/-- Result of a platform adapter's `verify`: a synchronous boolean or a
promise eventually resolving to a boolean. -/
inductive VerifyRes where
  | syncTrue
  | syncFalse
  | async (b : Bool)
deriving DecidableEq, Repr

/-- Whether a non-synchronously-false verification eventually resolves to
`true` inside the `Promise.all` join. -/
def VerifyRes.resolves : VerifyRes → Bool
  | VerifyRes.syncTrue => true
  | VerifyRes.syncFalse => false
  | VerifyRes.async b => b

/-- The `VoicePlatform` adapter contract, specialised to one request: support
predicate, parser, verification outcome and renderer. -/
structure Platform (Req Payload : Type) where
  pid : String
  isSupported : Req → Bool
  parse : Req → Input
  verifyRes : Req → VerifyRes
  render : OutputData → Payload

/-- Errors with which the dispatch promise rejects. -/
inductive DispatchErr where
  | requestNotSupported
  | verificationFailed
deriving DecidableEq, Repr

/-- The rejection string of each dispatch error in the source. -/
def DispatchErr.text : DispatchErr → String
  | DispatchErr.requestNotSupported => "Request not supported"
  | DispatchErr.verificationFailed => "Verification failed"

/-- Platforms whose support predicate matches the body; `handle` iterates
over all of them (`filter(...).forEach(...)`). -/
def matching (ps : List (Platform Req Payload)) (req : Req) :
    List (Platform Req Payload) :=
  ps.filter fun p => p.isSupported req

/-- Matching platforms whose synchronous verification did not return
`false`: exactly those for which `handle` schedules a
`Promise.all([verification, reply])` continuation. -/
def scheduled (ps : List (Platform Req Payload)) (req : Req) :
    List (Platform Req Payload) :=
  (matching ps req).filter fun p => decide (p.verifyRes req ≠ VerifyRes.syncFalse)

/-- Settling of the dispatch promise, from a freshly constructed assistant
(`selectedPlatform` initially null).  Asynchronous verifications are modelled
as already resolved with their boolean, so the continuations settle in
scheduling order and the first scheduled platform decides the outcome; a
resolving verification resolves with that platform's composed output, a false
one rejects with `VerificationFailed`.  With no scheduled platform the
promise rejects with `RequestNotSupported` when nothing matched, and never
settles when every match was abandoned by a synchronous `false` (the
`selectedPlatform` field is then non-null). -/
def settleOf (ps : List (Platform Req Payload)) (req : Req)
    (compose : Input → OutputData) : Option (Except DispatchErr OutputData) :=
  match (scheduled ps req).head? with
  | some p =>
    if (p.verifyRes req).resolves then
      some (Except.ok (compose (p.parse req)))
    else
      some (Except.error DispatchErr.verificationFailed)
  | none =>
    if (matching ps req).isEmpty then
      some (Except.error DispatchErr.requestNotSupported)
    else none

/-- The delivery postprocessing in `handle`: every generic text reply
(`type === 'text' && platform === '*'`) overwrites `output.message` in list
order, so the last one wins. -/
def postprocess (o : OutputData) : OutputData :=
  o.replies.foldl
    (fun acc r =>
      if r.type = "text" ∧ r.platform = "*" then { acc with message := r.render }
      else acc)
    o

/-- Observable outcome of one `handle` call. -/
structure HandleRes (Payload : Type) where
  settle : Option (Except DispatchErr OutputData)
  delivered : Option Payload
  errorWrite : Option String
  langField : Option String
  drivenPids : List String
  composedPids : List String

/-- Embedding of `VoiceAssistant.handle` for one request on a fresh
assistant.  `delivered` is the adapter-rendered payload written on success:
the promise output postprocessed and rendered by `this.selectedPlatform`,
which is the last matching platform (each iteration overwrites the field).
`errorWrite` is the error object written by the `catch` branch.  `langField`
is the final value of `this.language` (each scheduled iteration overwrites it
with the two-character prefix).  `drivenPids` are the platforms whose
`parse`/`verify` ran; `composedPids` those whose reply composition ran. -/
def handleRun (ps : List (Platform Req Payload)) (req : Req)
    (compose : Input → OutputData) : HandleRes Payload where
  settle := settleOf ps req compose
  delivered :=
    match settleOf ps req compose with
    | some (Except.ok out) =>
      (matching ps req).getLast?.map fun q => q.render (postprocess out)
    | _ => none
  errorWrite :=
    match settleOf ps req compose with
    | some (Except.error e) => some e.text
    | _ => none
  langField :=
    (scheduled ps req).getLast?.map fun p => (p.parse req).language.take 2
  drivenPids := (matching ps req).map fun p => p.pid
  composedPids := (scheduled ps req).map fun p => p.pid

/-! Concrete fixtures used by concrete evaluations and witnesses. -/

/-- A concrete parsed input on platform A (language exactly `en`). -/
def inpA : Input :=
  { id := "idA", userId := "u", sessionId := "s", language := "en",
    platform := "A", time := 0, intent := "int",
    inputMethod := InputMethod.text, message := "mA", context := [],
    accessToken := "" }

/-- A concrete parsed input on platform B. -/
def inpB : Input :=
  { inpA with id := "idB", platform := "B", message := "mB" }

/-- A concrete input carrying a full IETF language tag. -/
def inpUS : Input :=
  { inpA with
    id := "42"
    language := "en-US"
    message := "hello"
    context := [("k", "v")]
    accessToken := "tok"
    intent := "greet" }

/-- Adapter A: matches everything, verification succeeds synchronously. -/
def platA : Platform String String :=
  { pid := "A", isSupported := fun _ => true, parse := fun _ => inpA,
    verifyRes := fun _ => VerifyRes.syncTrue,
    render := fun o => "A:" ++ o.message }

/-- Adapter B: also matches everything, verification succeeds. -/
def platB : Platform String String :=
  { pid := "B", isSupported := fun _ => true, parse := fun _ => inpB,
    verifyRes := fun _ => VerifyRes.syncTrue,
    render := fun o => "B:" ++ o.message }

/-- Adapter C: matches everything, asynchronous verification resolving
`false`. -/
def platC : Platform String String :=
  { pid := "C", isSupported := fun _ => true, parse := fun _ => inpA,
    verifyRes := fun _ => VerifyRes.async false,
    render := fun o => "C:" ++ o.message }

/-- Adapter N: matches nothing. -/
def platN : Platform String String :=
  { pid := "N", isSupported := fun _ => false, parse := fun _ => inpA,
    verifyRes := fun _ => VerifyRes.syncTrue,
    render := fun o => "N:" ++ o.message }

/-- Adapter U: matches everything and parses to the full-tag input. -/
def platU : Platform String String :=
  { pid := "U", isSupported := fun _ => true, parse := fun _ => inpUS,
    verifyRes := fun _ => VerifyRes.syncTrue,
    render := fun o => "U:" ++ o.message }

/-- The reply composition used in concrete dispatch runs: the canonical
`DefaultReply` built from the input. -/
def composeFix : Input → OutputData := fun i => mkDefaultReply i 0

/-- The translation table of the spec's `addReply` example. -/
def tableWelcome : Translations := [("en", [("WELCOME", TrVal.single "Hi")])]

/-- The translation table of the nested-message composition example. -/
def tableGreet : Translations := [("en", [("GREET", TrVal.single "Hello %s")])]

/-- The translation table with language `en` and key `K` only. -/
def tableK : Translations := [("en", [("K", TrVal.single "v")])]

/-- Frame lemma for the composer interpreter: every composer call (normal,
thrown or fuel-exhausted) leaves the state equal to the initial state with
some suffix appended to `replies`; in particular the suggestions list, the
retention message, the continuation flag and every inherited `IOMessage`
field are untouched. -/
theorem runOp_frame (fuel : Nat) :
    ∀ (tr : Translations) (rand : Nat) (o : OutputData) (op : COp),
    ∃ δ, (runOp fuel tr rand o op).2 = { o with replies := o.replies ++ δ } := by
  induction fuel with
  | zero =>
    intro tr rand o op
    exact ⟨[], by simp [runOp]⟩
  | succ n ih =>
    intro tr rand o op
    match op with
    | COp.aReply (ReplyArg.reply r) args =>
      exact ⟨[r], rfl⟩
    | COp.aReply (ReplyArg.msg m) args =>
      cases h : DefaultReply.addTextReply tr rand o m.displayText [] with
      | error e => exact ⟨[], by simp [runOp, h]⟩
      | ok rv =>
        obtain ⟨δ, hδ⟩ := ih tr rand o (COp.aVoice m.ssml [])
        exact ⟨δ, by simp [runOp, h, hδ]⟩
    | COp.aReply (ReplyArg.str s) args =>
      obtain ⟨δ1, h1⟩ := ih tr rand o (COp.aMessage (KeyArg.str s) args)
      cases hres : runOp n tr rand o (COp.aMessage (KeyArg.str s) args) with
      | mk r1 o2 =>
        rw [hres] at h1
        cases r1 with
        | ok =>
          have ho2 : o2 = { o with replies := o.replies ++ δ1 } := h1
          subst ho2
          obtain ⟨δ2, h2⟩ :=
            ih tr rand { o with replies := o.replies ++ δ1 } (COp.aReply ReplyArg.undef [])
          refine ⟨δ1 ++ δ2, ?_⟩
          simp only [runOp, hres, h2]
          simp [List.append_assoc]
        | err e => exact ⟨δ1, by simp only [runOp, hres]; exact h1⟩
        | spin => exact ⟨δ1, by simp only [runOp, hres]; exact h1⟩
    | COp.aReply (ReplyArg.objLit r) args =>
      obtain ⟨δ1, h1⟩ := ih tr rand o (COp.aMessage KeyArg.objLit args)
      cases hres : runOp n tr rand o (COp.aMessage KeyArg.objLit args) with
      | mk r1 o2 =>
        rw [hres] at h1
        cases r1 with
        | ok =>
          have ho2 : o2 = { o with replies := o.replies ++ δ1 } := h1
          subst ho2
          obtain ⟨δ2, h2⟩ :=
            ih tr rand { o with replies := o.replies ++ δ1 } (COp.aReply ReplyArg.undef [])
          refine ⟨δ1 ++ δ2, ?_⟩
          simp only [runOp, hres, h2]
          simp [List.append_assoc]
        | err e => exact ⟨δ1, by simp only [runOp, hres]; exact h1⟩
        | spin => exact ⟨δ1, by simp only [runOp, hres]; exact h1⟩
    | COp.aReply ReplyArg.undef args =>
      obtain ⟨δ1, h1⟩ := ih tr rand o (COp.aMessage KeyArg.undef args)
      cases hres : runOp n tr rand o (COp.aMessage KeyArg.undef args) with
      | mk r1 o2 =>
        rw [hres] at h1
        cases r1 with
        | ok =>
          have ho2 : o2 = { o with replies := o.replies ++ δ1 } := h1
          subst ho2
          obtain ⟨δ2, h2⟩ :=
            ih tr rand { o with replies := o.replies ++ δ1 } (COp.aReply ReplyArg.undef [])
          refine ⟨δ1 ++ δ2, ?_⟩
          simp only [runOp, hres, h2]
          simp [List.append_assoc]
        | err e => exact ⟨δ1, by simp only [runOp, hres]; exact h1⟩
        | spin => exact ⟨δ1, by simp only [runOp, hres]; exact h1⟩
    | COp.aMessage k args =>
      cases h : DefaultReply.createMessage tr rand o.language k args with
      | error e => exact ⟨[], by simp [runOp, h]⟩
      | ok m =>
        obtain ⟨δ, hδ⟩ := ih tr rand o (COp.aReply (ReplyArg.msg m) [])
        exact ⟨δ, by simp [runOp, h, hδ]⟩
    | COp.aVoice message args =>
      cases h : DefaultReply.createMessage tr rand o.language (KeyArg.str message) args with
      | error e => exact ⟨[], by simp [runOp, h]⟩
      | ok m =>
        obtain ⟨δ, hδ⟩ :=
          ih tr rand o (COp.aReply (ReplyArg.objLit ⟨"*", "ssml", m.ssml, m.ssml⟩) [])
        exact ⟨δ, by simp [runOp, h, hδ]⟩

/-- Claim C1, counterexample.  With two adapters A and B both matching the
body, the dispatch does not use only the first matching adapter: every
matching adapter is driven (`drivenPids = ["A", "B"]`, not `["A"]`) and the
delivered payload is not adapter A's render of the composed output (it is
rendered by the last matching adapter B). -/
theorem C1_counterexample :
    ¬ ((handleRun [platA, platB] "r" composeFix).drivenPids = ["A"] ∧
       (handleRun [platA, platB] "r" composeFix).delivered =
         some (platA.render (postprocess (composeFix (platA.parse "r"))))) := by
  decide

/-- Claim C1 (amended).  When at least one matching adapter's synchronous
verification did not return `false` and the first such adapter's verification
resolves `true`, the dispatch resolves with the output composed from that
first adapter's parse; but the parse and verification of every matching
adapter and the reply composition of every scheduled adapter are driven, and
the delivered payload is the last matching adapter's render of the
postprocessed output. -/
theorem C1_first_match_amended {Req Payload : Type}
    (ps : List (Platform Req Payload)) (req : Req)
    (compose : Input → OutputData) (p : Platform Req Payload)
    (hhead : (scheduled ps req).head? = some p)
    (hv : (p.verifyRes req).resolves = true) :
    (handleRun ps req compose).settle = some (Except.ok (compose (p.parse req))) ∧
    (handleRun ps req compose).delivered =
      (matching ps req).getLast?.map
        (fun q => q.render (postprocess (compose (p.parse req)))) ∧
    (handleRun ps req compose).drivenPids =
      (matching ps req).map (fun q => q.pid) ∧
    (handleRun ps req compose).composedPids =
      (scheduled ps req).map (fun q => q.pid) := by
  have hset : settleOf ps req compose = some (Except.ok (compose (p.parse req))) := by
    simp [settleOf, hhead, hv]
  refine ⟨hset, ?_, rfl, rfl⟩
  show (match settleOf ps req compose with
    | some (Except.ok out) =>
      (matching ps req).getLast?.map fun (q : Platform Req Payload) => q.render (postprocess out)
    | _ => none) = _
  rw [hset]

/-- Witness for C1 (amended) at the two-adapter counterexample
configuration. -/
theorem C1_first_match_witness :
    (handleRun [platA, platB] "r" composeFix).settle =
      some (Except.ok (composeFix (platA.parse "r"))) ∧
    (handleRun [platA, platB] "r" composeFix).delivered =
      (matching [platA, platB] "r").getLast?.map
        (fun q => q.render (postprocess (composeFix (platA.parse "r")))) ∧
    (handleRun [platA, platB] "r" composeFix).drivenPids =
      (matching [platA, platB] "r").map (fun q => q.pid) ∧
    (handleRun [platA, platB] "r" composeFix).composedPids =
      (scheduled [platA, platB] "r").map (fun q => q.pid) :=
  C1_first_match_amended [platA, platB] "r" composeFix platA rfl rfl

/-- Claim C2, counterexample.  At a concrete configuration whose only adapter
matches nothing, the dispatch does reject with `Request not supported`, but
the core also produces a response payload: the `catch` branch writes the
serialized error object for `Request not supported` through the response
sink (`response.end(JSON.stringify(...))`, modelled by `errorWrite`), so the
claim's `no response payload is produced by the core` is false. -/
theorem C2_counterexample :
    (handleRun [platN] "r" composeFix).settle =
      some (Except.error DispatchErr.requestNotSupported) ∧
    (handleRun [platN] "r" composeFix).errorWrite =
      some "Request not supported" := by
  decide

/-- Claim C2 (amended).  When no configured adapter's support predicate
returns true for the body, the dispatch promise rejects with
`Request not supported` and no adapter-rendered response payload is
delivered; the core's `catch` branch does however write the serialized error
object for `Request not supported` through the response sink. -/
theorem C2_request_not_supported {Req Payload : Type}
    (ps : List (Platform Req Payload)) (req : Req)
    (compose : Input → OutputData)
    (h : ∀ p ∈ ps, p.isSupported req = false) :
    (handleRun ps req compose).settle =
      some (Except.error DispatchErr.requestNotSupported) ∧
    (handleRun ps req compose).delivered = none ∧
    (handleRun ps req compose).errorWrite = some "Request not supported" := by
  have hm : matching ps req = [] := by
    refine List.filter_eq_nil_iff.mpr fun p hp => ?_
    simp [h p hp]
  have hset : settleOf ps req compose =
      some (Except.error DispatchErr.requestNotSupported) := by
    simp [settleOf, scheduled, hm]
  refine ⟨hset, ?_, ?_⟩
  · show (match settleOf ps req compose with
      | some (Except.ok out) =>
        (matching ps req).getLast?.map fun q => q.render (postprocess out)
      | _ => none) = none
    rw [hset]
  · show (match settleOf ps req compose with
      | some (Except.error e) => some e.text
      | _ => none) = some "Request not supported"
    rw [hset]
    rfl

/-- Witness for C2 (amended) with one configured adapter that matches
nothing. -/
theorem C2_request_not_supported_witness :
    (handleRun [platN] "r" composeFix).settle =
      some (Except.error DispatchErr.requestNotSupported) ∧
    (handleRun [platN] "r" composeFix).delivered = none ∧
    (handleRun [platN] "r" composeFix).errorWrite =
      some "Request not supported" :=
  C2_request_not_supported [platN] "r" composeFix
    (by intro p hp; simp only [List.mem_singleton] at hp; subst hp; rfl)

/-- Claim C3.  When the adapter driving the dispatch (the first matching one
not abandoned by a synchronous `false`) has an asynchronous verification that
resolves `false`, the dispatch rejects with `Verification failed` and no
rendered payload is delivered; reply composition (total in this model, hence
already completed) does not change that. -/
theorem C3_verification_failed {Req Payload : Type}
    (ps : List (Platform Req Payload)) (req : Req)
    (compose : Input → OutputData) (p : Platform Req Payload)
    (hhead : (scheduled ps req).head? = some p)
    (hv : p.verifyRes req = VerifyRes.async false) :
    (handleRun ps req compose).settle =
      some (Except.error DispatchErr.verificationFailed) ∧
    (handleRun ps req compose).delivered = none ∧
    (handleRun ps req compose).errorWrite = some "Verification failed" := by
  have hres : (p.verifyRes req).resolves = false := by rw [hv]; rfl
  have hset : settleOf ps req compose =
      some (Except.error DispatchErr.verificationFailed) := by
    simp [settleOf, hhead, hres]
  refine ⟨hset, ?_, ?_⟩
  · show (match settleOf ps req compose with
      | some (Except.ok out) =>
        (matching ps req).getLast?.map fun q => q.render (postprocess out)
      | _ => none) = none
    rw [hset]
  · show (match settleOf ps req compose with
      | some (Except.error e) => some e.text
      | _ => none) = some "Verification failed"
    rw [hset]
    rfl

/-- Witness for C3 with one adapter whose verification resolves `false`. -/
theorem C3_verification_failed_witness :
    (handleRun [platC] "r" composeFix).settle =
      some (Except.error DispatchErr.verificationFailed) ∧
    (handleRun [platC] "r" composeFix).delivered = none ∧
    (handleRun [platC] "r" composeFix).errorWrite = some "Verification failed" :=
  C3_verification_failed [platC] "r" composeFix platC rfl rfl

/-- Claim C4 (code bug), evaluation at the claim's own example.  Against the
table with only `WELCOME` bound to `Hi` in language `en`, `addReply("WELCOME")`
appends no reply at all and throws: the resolved `Message` branch calls
`addTextReply`, which re-resolves the already resolved display text `Hi` as a
translation key through strict `t` and throws; the text reply object it
returns is discarded rather than pushed, and the voice reply object literal
would fail `instanceof Reply` anyway.  The same happens when the `Message` is
passed directly.  The claimed two appended entries never occur. -/
theorem C4_addReply_eval :
    addReplyRun 10 tableWelcome 0 (mkDefaultReply inpA 0)
        (ReplyArg.str "WELCOME") [] =
      (ROut.err (JsErr.thrown "No translation for key \"Hi\" found."),
        mkDefaultReply inpA 0) ∧
    addReplyRun 10 tableWelcome 0 (mkDefaultReply inpA 0)
        (ReplyArg.msg ⟨"Hi", "<speak>Hi</speak>"⟩) [] =
      (ROut.err (JsErr.thrown "No translation for key \"Hi\" found."),
        mkDefaultReply inpA 0) ∧
    (mkDefaultReply inpA 0).replies = [] := by
  decide

/-- Claim C5 (code bug), evaluation.  Composing `GREET` (bound to
`Hello %s`) with a nested message whose envelope is stripped produces SSML
with a duplicated root envelope: `getSsml` wraps the substituted text once
and `createMessage` wraps the result again.  `getSsml` alone does produce a
single envelope around a resolved `Hi`. -/
theorem C5_double_envelope_eval :
    DefaultReply.createMessage tableGreet 0 "en" (KeyArg.str "GREET")
        [MsgArg.msg ⟨"World", "<speak>World</speak>"⟩] =
      Except.ok ⟨"Hello World", "<speak><speak>Hello World</speak></speak>"⟩ ∧
    MapTranslator.getSsml tableWelcome "en" "WELCOME" [] 0 =
      Except.ok "<speak>Hi</speak>" := by
  decide

/-- Claim C6 (code bug), evaluation.  With the table containing only language
`en`, `getDisplayText` throws a `TypeError` for the absent language `de`
instead of returning null, and returns the empty string (not null) for an
absent key. -/
theorem C6_getDisplayText_eval :
    MapTranslator.getDisplayText tableK "de" "K" [] 0 =
      Except.error JsErr.typeError ∧
    MapTranslator.getDisplayText tableK "en" "missing" [] 0 = Except.ok "" := by
  decide

/-- Claim C7, counterexample.  The in-scope composer's derivation of an
Output from an Input (the `DefaultReply` constructor) does not satisfy the
claim: at the concrete input with id `42` and message `hello` the derived
output's id is not `42.reply` and its message body is not empty. -/
theorem C7_counterexample :
    ¬ ((mkDefaultReply inpUS 7).id = inpUS.id ++ ".reply" ∧
       (mkDefaultReply inpUS 7).message = "") := by
  decide

/-- Claim C7 (amended).  The legacy variant's `Input.reply` satisfies the
claimed shape (id suffixed with `.reply`, user, session, platform, language,
intent and context copied, empty message); the in-scope `DefaultReply`
constructor instead copies every one of these fields, including id and
message, verbatim from the input. -/
theorem C7_reply_derivation (i : Input) (now : Nat) :
    (Input.reply i now).id = i.id ++ ".reply" ∧
    (Input.reply i now).message = "" ∧
    (Input.reply i now).userId = i.userId ∧
    (Input.reply i now).sessionId = i.sessionId ∧
    (Input.reply i now).platform = i.platform ∧
    (Input.reply i now).language = i.language ∧
    (Input.reply i now).intent = i.intent ∧
    (Input.reply i now).context = i.context ∧
    (mkDefaultReply i now).id = i.id ∧
    (mkDefaultReply i now).message = i.message ∧
    (mkDefaultReply i now).userId = i.userId ∧
    (mkDefaultReply i now).sessionId = i.sessionId ∧
    (mkDefaultReply i now).platform = i.platform ∧
    (mkDefaultReply i now).language = i.language ∧
    (mkDefaultReply i now).intent = i.intent ∧
    (mkDefaultReply i now).context = i.context :=
  ⟨rfl, rfl, rfl, rfl, rfl, rfl, rfl, rfl, rfl, rfl, rfl, rfl, rfl, rfl, rfl, rfl⟩

/-- Claim C8, counterexample.  With the table keyed by the two-character
language `en` and an input whose language tag is `en-US`, the composer's
strict lookup `t` throws a `TypeError` (the table is indexed with the full
tag), whereas the lookup under the normalized two-character language would
have succeeded; so lookups do not use the normalized language. -/
theorem C8_counterexample :
    DefaultReply.t tableK 0 (mkDefaultReply inpUS 0) "K" [] =
      Except.error JsErr.typeError ∧
    MapTranslator.getDisplayText tableK (inpUS.language.take 2) "K" [] 0 =
      Except.ok "v" := by
  decide

/-- Claim C8 (amended).  The dispatcher stores the two-character prefix of
the parsed input's language in its own `language` field, but that field is
not used by translation lookups: the composer's `DefaultReply` carries the
input's full language tag unchanged, and `MapTranslator` indexes the table
with it. -/
theorem C8_language_amended {Req Payload : Type}
    (ps : List (Platform Req Payload)) (req : Req)
    (compose : Input → OutputData) (p : Platform Req Payload)
    (hlast : (scheduled ps req).getLast? = some p) :
    (handleRun ps req compose).langField =
      some ((p.parse req).language.take 2) ∧
    ∀ (i : Input) (now : Nat), (mkDefaultReply i now).language = i.language := by
  refine ⟨?_, fun i now => rfl⟩
  show ((scheduled ps req).getLast?.map fun q => (q.parse req).language.take 2) = _
  rw [hlast]
  rfl

/-- Witness for C8 (amended) at the full-tag adapter. -/
theorem C8_language_witness :
    (handleRun [platU] "r" composeFix).langField =
      some ((platU.parse "r").language.take 2) ∧
    ∀ (i : Input) (now : Nat), (mkDefaultReply i now).language = i.language :=
  C8_language_amended [platU] "r" composeFix platU rfl

/-- Claim C9.  Every freshly constructed Output — from the `Output`
constructor arguments or as a `DefaultReply` built from an Input — starts
with empty replies and suggestions, `expectAnswer` false, no retention
message, and input method fixed to text. -/
theorem C9_fresh_output (i : Input) (now : Nat)
    (id userId sessionId platform language intent message : String)
    (ctx : Context) :
    (mkOutput id userId sessionId platform language intent message ctx now).replies = [] ∧
    (mkOutput id userId sessionId platform language intent message ctx now).suggestions = [] ∧
    (mkOutput id userId sessionId platform language intent message ctx now).expectAnswer = false ∧
    (mkOutput id userId sessionId platform language intent message ctx now).retentionMessage = none ∧
    (mkOutput id userId sessionId platform language intent message ctx now).inputMethod = InputMethod.text ∧
    (mkDefaultReply i now).replies = [] ∧
    (mkDefaultReply i now).suggestions = [] ∧
    (mkDefaultReply i now).expectAnswer = false ∧
    (mkDefaultReply i now).retentionMessage = none ∧
    (mkDefaultReply i now).inputMethod = InputMethod.text :=
  ⟨rfl, rfl, rfl, rfl, rfl, rfl, rfl, rfl, rfl, rfl⟩

/-- Claim C10.  Every mutating operation on an Output touches only its own
target field and only by appending: `addReply` (through the whole mutually
recursive call chain, on normal, throwing and diverging paths alike) leaves
the state equal to the initial one with a suffix appended to `replies`;
`addSuggestion` appends a suffix to `suggestions` and changes nothing else;
`setRetentionMessage` and `setExpectAnswer` update exactly their own
field. -/
theorem C10_frame (fuel : Nat) (tr : Translations) (rand : Nat)
    (o : OutputData) (a : ReplyArg) (margs : List MsgArg) (sa : SuggArg)
    (sargs : List MsgArg) (m : String) (b : Bool) :
    (∃ δ, (addReplyRun fuel tr rand o a margs).2 =
      { o with replies := o.replies ++ δ }) ∧
    (∃ δ, (DefaultReply.addSuggestion tr rand o sa sargs).2 =
      { o with suggestions := o.suggestions ++ δ }) ∧
    DefaultReply.setRetentionMessage o m = { o with retentionMessage := some m } ∧
    DefaultReply.setExpectAnswer o b = { o with expectAnswer := b } := by
  refine ⟨runOp_frame fuel tr rand o (COp.aReply a margs), ?_, rfl, rfl⟩
  cases sa with
  | inst s => exact ⟨[s], rfl⟩
  | str label =>
    cases h : DefaultReply.createMessage tr rand o.language (KeyArg.str label) sargs with
    | error e => exact ⟨[], by simp [DefaultReply.addSuggestion, h]⟩
    | ok mm =>
      exact ⟨[⟨"*", mm.displayText, mm.displayText⟩],
        by simp [DefaultReply.addSuggestion, h]⟩
  | objLit =>
    cases h : DefaultReply.createMessage tr rand o.language KeyArg.objLit sargs with
    | error e => exact ⟨[], by simp [DefaultReply.addSuggestion, h]⟩
    | ok mm =>
      exact ⟨[⟨"*", mm.displayText, mm.displayText⟩],
        by simp [DefaultReply.addSuggestion, h]⟩

end ChatbotBase
